import Mathlib

/-
Shallow embedding of the ICBC central API (src/main.py).

The persistent store (two SQLite tables, `tasks` and `configs`) is modelled
as explicit state: a `Store` record threaded through every operation.
`datetime.utcnow()` is modelled by an explicit `now : Nat` argument;
timestamps are abstract instants.  JSON payloads written by `json.dumps`
and read back by `json.loads` round-trip, so the task payload is kept as
the structured `EnrollRequest`; config payloads are opaque `Json` values.
HTTP errors (`HTTPException`, FastAPI query validation) become `Except`.
Optional query parameters use Python truthiness: `None` and the empty
string are both falsy.
-/

namespace ICBC

/-- JSON-like values, for the opaque config payloads. -/
inductive Json where
  | num : Int → Json
  | str : String → Json
  | bool : Bool → Json
  | obj : List (String × Json) → Json
deriving Repr

/-- Field lookup in a JSON object (first binding wins, as in a dict). -/
def Json.lookup : Json → String → Option Json
  | .obj fields, k => (fields.find? (fun p => p.1 == k)).map (fun p => p.2)
  | _, _ => none

/-- Two-level field lookup, e.g. `rate_limits.per_task_interval_min`. -/
def Json.getPath (j : Json) (k1 k2 : String) : Option Json :=
  (j.lookup k1).bind (fun v => v.lookup k2)

/-- `Preferences` pydantic model. -/
structure Preferences where
  centre : String
  date_start : String
  date_end : String
  days_of_week : List String
  time_of_day : Option String
deriving Repr, DecidableEq

/-- `EnrollRequest` pydantic model; `student` is a free-form dict. -/
structure EnrollRequest where
  school_id : String
  student : List (String × String)
  preferences : Preferences
  consent_timestamp : String
deriving Repr, DecidableEq

/-- `ReportRequest` pydantic model; each slot is a free-form dict. -/
structure ReportRequest where
  task_id : Nat
  school_id : String
  detected_at : String
  slots_found : List (List (String × String))
  agent_meta : List (String × String)
deriving Repr, DecidableEq

/-- `TaskUpdateRequest` pydantic model. -/
structure TaskUpdateRequest where
  status : String
  progress : Int
  message : Option String
deriving Repr, DecidableEq

/-- A row of the `tasks` table. -/
structure Task where
  id : Nat
  school_id : String
  data : EnrollRequest
  created_at : Nat
  status : String
  updated_at : Nat
  progress : Int
  message : String
deriving Repr, DecidableEq

/-- A row of the `configs` table (`school_id = none` means global). -/
structure Config where
  id : Nat
  school_id : Option String
  data : Json
  updated_at : Nat
deriving Repr

/-- The persistent store: both tables plus the autoincrement counter. -/
structure Store where
  tasks : List Task
  configs : List Config
  nextId : Nat
deriving Repr

/-- `HTTPException` / FastAPI validation failure: status code and detail. -/
structure HErr where
  code : Nat
  detail : String
deriving Repr, DecidableEq

/-- Python truthiness of an optional string: `None` and `""` are falsy. -/
def truthy : Option String → Bool
  | some v => v ≠ ""
  | none => false

/-- Lookup in a free-form dict, `d.get(k)` in Python. -/
def dictGet (d : List (String × String)) (k : String) : Option String :=
  (d.find? (fun p => p.1 == k)).map (fun p => p.2)

/-- Replace the first element satisfying `p` by its image under `f`
(the ORM pattern `first()` then mutate then commit). -/
def updateFirst (p : Task → Bool) (f : Task → Task) : List Task → List Task
  | [] => []
  | t :: ts => if p t then f t :: ts else t :: updateFirst p f ts

/-- Response body of `POST /api/enroll`. -/
structure EnrollResp where
  status : String
  task_id : Nat
  message : String
deriving Repr, DecidableEq

/-- `POST /api/enroll`: persist the request verbatim as a new pending task. -/
def enroll (s : Store) (req : EnrollRequest) (now : Nat) : Store × EnrollResp :=
  let t : Task :=
    { id := s.nextId
      school_id := req.school_id
      data := req
      created_at := now
      status := "pending"
      updated_at := now
      progress := 10
      message := "报名信息已接收，等待处理" }
  ({ s with tasks := s.tasks ++ [t], nextId := s.nextId + 1 },
   { status := "ok"
     task_id := s.nextId
     message := "报名成功，您可以使用task_id查询处理进度" })

/-- A task as rendered by list endpoints: lifecycle fields plus the decoded
payload flattened alongside. -/
structure TaskView where
  task_id : Nat
  status : String
  progress : Int
  message : String
  created_at : Nat
  updated_at : Nat
  payload : EnrollRequest
deriving Repr, DecidableEq

def taskViewOf (t : Task) : TaskView :=
  { task_id := t.id
    status := t.status
    progress := t.progress
    message := t.message
    created_at := t.created_at
    updated_at := t.updated_at
    payload := t.data }

/-- `GET /api/tasks?school_id=&since=`. -/
def get_tasks (s : Store) (sid : String) (since : Option Nat) : List TaskView :=
  let q : List Task := s.tasks.filter (fun t => t.school_id == sid)
  let q2 : List Task := match since with
    | some x => q.filter (fun t => decide (x ≤ t.created_at))
    | none => q
  q2.map taskViewOf

/-- The message written by a report finding `n` slots. -/
def reportMessage (n : Nat) : String :=
  "找到 " ++ toString n ++ " 个可用时间段"

/-- The mutation a report applies to the referenced task. -/
def applyReport (now : Nat) (req : ReportRequest) (t : Task) : Task :=
  { t with
    status := "completed"
    progress := 100
    message := reportMessage req.slots_found.length
    updated_at := now }

/-- Response body of `POST /api/report`: always ok, echoing the request. -/
structure ReportResp where
  status : String
  received : ReportRequest
deriving Repr, DecidableEq

/-- `POST /api/report`: if the referenced task exists, force it to
completed; otherwise do nothing.  Always acknowledges with ok. -/
def report (s : Store) (req : ReportRequest) (now : Nat) : Store × ReportResp :=
  ({ s with
     tasks := updateFirst (fun t => t.id == req.task_id) (applyReport now req) s.tasks },
   { status := "ok", received := req })

/-- The hardcoded default returned when no config record matches. -/
def defaultConfig : Json :=
  .obj
    [("rate_limits", .obj
        [("per_task_interval_min", .num 15),
         ("jitter_percent", .num 30),
         ("max_checks_per_hour", .num 20),
         ("max_checks_per_day", .num 200),
         ("backoff_enabled", .bool true),
         ("backoff_factor", .num 2),
         ("max_interval_min", .num 60)]),
     ("notifications", .obj
        [("allow_email", .bool true),
         ("allow_sms", .bool true),
         ("allow_telegram", .bool true)]),
     ("agent", .obj
        [("heartbeat_interval_min", .num 10),
         ("update_required", .bool false),
         ("latest_version", .str "1.0.0")])]

/-- `GET /api/config?school_id=`: school record first, then global record,
then the built-in default. -/
def get_config (s : Store) (sid : String) : Json :=
  match s.configs.find? (fun c => c.school_id == some sid) with
  | some cfg => cfg.data
  | none =>
    match s.configs.find? (fun c => c.school_id == none) with
    | some cfg => cfg.data
    | none => defaultConfig

/-- Response body of `GET /api/tasks/{task_id}`. -/
structure TaskDetail where
  task_id : Nat
  status : String
  progress : Int
  message : String
  created_at : Nat
  updated_at : Nat
  school_id : String
  student_info : List (String × String)
  preferences : Preferences
deriving Repr, DecidableEq

/-- `GET /api/tasks/{task_id}`: 404 when the id is unknown. -/
def get_task_status (s : Store) (tid : Nat) : Except HErr TaskDetail :=
  match s.tasks.find? (fun t => t.id == tid) with
  | none => .error { code := 404, detail := "Task not found" }
  | some t =>
    .ok { task_id := t.id
          status := t.status
          progress := t.progress
          message := t.message
          created_at := t.created_at
          updated_at := t.updated_at
          school_id := t.school_id
          student_info := t.data.student
          preferences := t.data.preferences }

/-- The mutation an administrative update applies: status and progress are
always overwritten, the message only when the given one is truthy
(Python `if update.message:` — `None` and `""` both skip it). -/
def applyUpdate (now : Nat) (u : TaskUpdateRequest) (t : Task) : Task :=
  { t with
    status := u.status
    progress := u.progress
    message := match u.message with
      | some m => if m ≠ "" then m else t.message
      | none => t.message
    updated_at := now }

/-- `PUT /api/tasks/{task_id}`: 404 when the id is unknown, otherwise the
administrative overwrite. -/
def update_task_status (s : Store) (tid : Nat) (u : TaskUpdateRequest)
    (now : Nat) : Except HErr (Store × String) :=
  match s.tasks.find? (fun t => t.id == tid) with
  | none => .error { code := 404, detail := "Task not found" }
  | some _ =>
    .ok ({ s with tasks := updateFirst (fun t => t.id == tid) (applyUpdate now u) s.tasks },
         "任务状态已更新")

/-- One record of the enrollments listing / search results. -/
structure EnrollmentView where
  enrollment_id : Nat
  task_id : Nat
  status : String
  progress : Int
  message : String
  created_at : Nat
  updated_at : Nat
  payload : EnrollRequest
deriving Repr, DecidableEq

def enrollmentViewOf (t : Task) : EnrollmentView :=
  { enrollment_id := t.id
    task_id := t.id
    status := t.status
    progress := t.progress
    message := t.message
    created_at := t.created_at
    updated_at := t.updated_at
    payload := t.data }

/-- Response body of `GET /api/enrollments`. -/
structure EnrollmentsPage where
  total : Nat
  limit : Int
  offset : Int
  enrollments : List EnrollmentView
deriving Repr, DecidableEq

/-- Tasks ordered by `created_at` descending (`order_by(created_at.desc())`). -/
def tasksByCreatedDesc (s : Store) : List Task :=
  s.tasks.mergeSort (fun a b => b.created_at ≤ a.created_at)

/-- `GET /api/enrollments?limit=&offset=`: FastAPI validates `limit ≤ 1000`
(422 otherwise) and `offset ≥ 0` (422 otherwise); defaults are 100 and 0.
A negative limit means no bound (SQLite `LIMIT -1`). -/
def get_all_enrollments (s : Store) (limit offset : Option Int) :
    Except HErr EnrollmentsPage :=
  let l := limit.getD 100
  let o := offset.getD 0
  if 1000 < l then .error { code := 422, detail := "limit must be at most 1000" }
  else if o < 0 then .error { code := 422, detail := "offset must be at least 0" }
  else
    let dropped := (tasksByCreatedDesc s).drop o.toNat
    let page := if l < 0 then dropped else dropped.take l.toNat
    .ok { total := s.tasks.length
          limit := l
          offset := o
          enrollments := page.map enrollmentViewOf }

/-- Response body of `GET /api/enrollments/search`. -/
structure SearchResult where
  total : Nat
  results : List EnrollmentView
deriving Repr, DecidableEq

/-- Whether a task survives the in-memory email/phone post-filter. -/
def searchMatch (email phone : Option String) (t : Task) : Bool :=
  (!truthy email || dictGet t.data.student "email" == email) &&
  (!truthy phone || dictGet t.data.student "phone" == phone)

/-- `GET /api/enrollments/search?email=&phone=&school_id=`: 400 when no
truthy criterion is given; otherwise an optional store-level school filter
followed by the in-memory email/phone post-filter. -/
def search_enrollments (s : Store) (email phone school_id : Option String) :
    Except HErr SearchResult :=
  if !truthy email && !truthy phone && !truthy school_id then
    .error { code := 400, detail := "请提供至少一个搜索条件：email、phone 或 school_id" }
  else
    let base := if truthy school_id
      then s.tasks.filter (fun t => some t.school_id == school_id)
      else s.tasks
    let results := base.filter (searchMatch email phone)
    .ok { total := results.length, results := results.map enrollmentViewOf }

/-- Response body of `GET /api/stats`. -/
structure Stats where
  total_enrollments : Nat
  pending : Nat
  processing : Nat
  completed : Nat
  failed : Nat
  last_updated : Nat
deriving Repr, DecidableEq

/-- `GET /api/stats`: per-status counts plus the total. -/
def get_statistics (s : Store) (now : Nat) : Stats :=
  { total_enrollments := s.tasks.length
    pending := (s.tasks.filter (fun t => t.status == "pending")).length
    processing := (s.tasks.filter (fun t => t.status == "processing")).length
    completed := (s.tasks.filter (fun t => t.status == "completed")).length
    failed := (s.tasks.filter (fun t => t.status == "failed")).length
    last_updated := now }

/-- Stores reachable through the API from an empty tasks table (SQLite
autoincrement starts at 1; config records are written out-of-band, so any
initial `configs` table is allowed). -/
inductive Reachable : Store → Prop where
  | init (cfgs : List Config) : Reachable { tasks := [], configs := cfgs, nextId := 1 }
  | enroll {s : Store} (req : EnrollRequest) (now : Nat) :
      Reachable s → Reachable (enroll s req now).1
  | report {s : Store} (req : ReportRequest) (now : Nat) :
      Reachable s → Reachable (report s req now).1
  | update {s s2 : Store} {r : String} (tid : Nat) (u : TaskUpdateRequest) (now : Nat) :
      Reachable s → update_task_status s tid u now = .ok (s2, r) → Reachable s2

/-! Sample data shared by concrete instantiations. -/

def prefs0 : Preferences :=
  { centre := "Richmond", date_start := "2025-01-01", date_end := "2025-02-01",
    days_of_week := ["Mon", "Tue"], time_of_day := some "am" }

def req0 : EnrollRequest :=
  { school_id := "s1", student := [("email", "e@x"), ("phone", "123")],
    preferences := prefs0, consent_timestamp := "2024-12-01T00:00:00" }

def req1 : EnrollRequest :=
  { school_id := "s2", student := [("email", "f@y"), ("phone", "456")],
    preferences := prefs0, consent_timestamp := "2024-12-02T00:00:00" }

/-- The empty store, as after table creation. -/
def st0 : Store := { tasks := [], configs := [], nextId := 1 }

/-- A store holding one freshly enrolled task (id 1, school "s1"). -/
def st1 : Store := (enroll st0 req0 0).1

/-- A sample agent report addressed to task 1 with two slots. -/
def rep1 : ReportRequest :=
  { task_id := 1, school_id := "s1", detected_at := "d",
    slots_found := [[("time", "9am")], [("time", "10am")]], agent_meta := [] }

/-! Helper lemmas about `updateFirst`. -/

theorem updateFirst_of_find?_eq_none (p : Task → Bool) (f : Task → Task)
    (l : List Task) (h : l.find? p = none) : updateFirst p f l = l := by
  induction l with
  | nil => rfl
  | cons a l ih =>
    rw [List.find?_cons] at h
    cases hp : p a with
    | true => simp [hp] at h
    | false =>
      simp only [hp] at h
      simp [updateFirst, hp, ih h]

theorem find?_eq_some_decomp (p : Task → Bool) (l : List Task) (t : Task)
    (h : l.find? p = some t) :
    ∃ l1 l2, l = l1 ++ t :: l2 ∧ (∀ u ∈ l1, p u = false) ∧
      ∀ f, updateFirst p f l = l1 ++ f t :: l2 := by
  induction l with
  | nil => simp [List.find?] at h
  | cons a l ih =>
    rw [List.find?_cons] at h
    cases hp : p a with
    | true =>
      simp only [hp, Option.some.injEq] at h
      subst h
      exact ⟨[], l, by simp, by simp, fun f => by simp [updateFirst, hp]⟩
    | false =>
      simp only [hp] at h
      obtain ⟨l1, l2, hl, hl1, hu⟩ := ih h
      refine ⟨a :: l1, l2, by simp [hl], ?_, fun f => by simp [updateFirst, hp, hu f]⟩
      intro u hu2
      rcases List.mem_cons.mp hu2 with h1 | h1
      · exact h1 ▸ hp
      · exact hl1 u h1

theorem find?_updateFirst (p : Task → Bool) (f : Task → Task) (l : List Task)
    (t : Task) (h : l.find? p = some t) (hft : p (f t) = true) :
    (updateFirst p f l).find? p = some (f t) := by
  obtain ⟨l1, l2, hl, hl1, hu⟩ := find?_eq_some_decomp p l t h
  rw [hu f, List.find?_append]
  have h1 : l1.find? p = none := List.find?_eq_none.mpr (fun x hx => by simp [hl1 x hx])
  rw [h1, List.find?_cons, hft]
  rfl

/-- Each task whose status lies in the four counted statuses contributes to
exactly one per-status count, so the counts sum to the length. -/
theorem statusCounts_sum (l : List Task)
    (h : ∀ t ∈ l, t.status = "pending" ∨ t.status = "processing" ∨
      t.status = "completed" ∨ t.status = "failed") :
    (l.filter (fun t => t.status == "pending")).length +
      (l.filter (fun t => t.status == "processing")).length +
      (l.filter (fun t => t.status == "completed")).length +
      (l.filter (fun t => t.status == "failed")).length = l.length := by
  induction l with
  | nil => rfl
  | cons a l ih =>
    have ha := h a (List.mem_cons_self a l)
    have ih2 := ih (fun t ht => h t (List.mem_cons_of_mem a ht))
    simp only [List.filter_cons]
    rcases ha with ha | ha | ha | ha <;>
      simp [ha, List.length_cons] <;> omega

/-- The task created in `st1` by the enrollment `req0` at time 0. -/
def task1 : Task :=
  { id := 1, school_id := "s1", data := req0, created_at := 0,
    status := "pending", updated_at := 0, progress := 10,
    message := "报名信息已接收，等待处理" }

/-- A second report for task 1 with a single slot (different count). -/
def rep2 : ReportRequest :=
  { task_id := 1, school_id := "s1", detected_at := "d2",
    slots_found := [[("time", "2pm")]], agent_meta := [("v", "2")] }

/-- C1: applying a report with N discovered slots to an existing task sets
its status to "completed", its progress to 100, its message to the string
derived from N, and its update timestamp to the current instant; reapplying
a report with a different slot count N' to the same task again yields
status "completed" and progress 100, with the message now derived from N'
and the timestamp refreshed again. -/
theorem C1_report_completes (s : Store) (req req2 : ReportRequest)
    (now now2 : Nat) (t : Task)
    (h : s.tasks.find? (fun u => u.id == req.task_id) = some t)
    (h2 : req2.task_id = req.task_id) :
    (report s req now).1.tasks.find? (fun u => u.id == req.task_id) = some
      { t with status := "completed", progress := 100,
               message := reportMessage req.slots_found.length,
               updated_at := now } ∧
    (report (report s req now).1 req2 now2).1.tasks.find?
        (fun u => u.id == req.task_id) = some
      { t with status := "completed", progress := 100,
               message := reportMessage req2.slots_found.length,
               updated_at := now2 } := by
  have hpt : (t.id == req.task_id) = true := by
    simpa using List.find?_some h
  have h1 : (report s req now).1.tasks.find? (fun u => u.id == req.task_id)
      = some (applyReport now req t) :=
    find?_updateFirst _ _ _ t h (by simpa [applyReport] using hpt)
  refine ⟨h1, ?_⟩
  simp only [← h2] at h1 hpt ⊢
  exact find?_updateFirst _ _ _ (applyReport now req t) h1
    (by simpa [applyReport] using hpt)

/-- C1 witness: concrete two-report run against the one-task store. -/
theorem C1_report_completes_witness :
    (report st1 rep1 3).1.tasks.find? (fun u => u.id == rep1.task_id) = some
      { task1 with status := "completed", progress := 100,
                   message := reportMessage rep1.slots_found.length,
                   updated_at := 3 } ∧
    (report (report st1 rep1 3).1 rep2 4).1.tasks.find?
        (fun u => u.id == rep1.task_id) = some
      { task1 with status := "completed", progress := 100,
                   message := reportMessage rep2.slots_found.length,
                   updated_at := 4 } :=
  C1_report_completes st1 rep1 rep2 3 4 task1 (by rfl) (by rfl)

/-- C3: a report whose task id matches no task is acknowledged with ok and
leaves the store entirely unchanged — no record created or modified, and
the report itself is not persisted anywhere in the store. -/
theorem C3_report_unknown_ack (s : Store) (req : ReportRequest) (now : Nat)
    (h : s.tasks.find? (fun u => u.id == req.task_id) = none) :
    report s req now = (s, { status := "ok", received := req }) := by
  unfold report
  rw [updateFirst_of_find?_eq_none _ _ _ h]

/-- C3 witness: a report against the empty store. -/
theorem C3_report_unknown_ack_witness :
    report st0 rep1 5 = (st0, { status := "ok", received := rep1 }) :=
  C3_report_unknown_ack st0 rep1 5 (by rfl)

/-- C10: a report to an existing task rewrites only that task's status,
progress, message and update timestamp; its id, school, payload and
creation timestamp are kept, every other task is untouched, and the
configs table and the id counter are unchanged. -/
theorem C10_report_frame (s : Store) (req : ReportRequest) (now : Nat)
    (t : Task)
    (h : s.tasks.find? (fun u => u.id == req.task_id) = some t) :
    (report s req now).1.configs = s.configs ∧
    (report s req now).1.nextId = s.nextId ∧
    ∃ l1 l2, s.tasks = l1 ++ t :: l2 ∧
      (report s req now).1.tasks =
        l1 ++ { t with status := "completed", progress := 100,
                       message := reportMessage req.slots_found.length,
                       updated_at := now } :: l2 := by
  obtain ⟨l1, l2, hl, hl1, hu⟩ := find?_eq_some_decomp _ _ _ h
  exact ⟨rfl, rfl, l1, l2, hl, hu (applyReport now req)⟩

/-- C10 witness: concrete report against the one-task store. -/
theorem C10_report_frame_witness :
    (report st1 rep1 3).1.configs = st1.configs ∧
    (report st1 rep1 3).1.nextId = st1.nextId ∧
    ∃ l1 l2, st1.tasks = l1 ++ task1 :: l2 ∧
      (report st1 rep1 3).1.tasks =
        l1 ++ { task1 with status := "completed", progress := 100,
                           message := reportMessage rep1.slots_found.length,
                           updated_at := 3 } :: l2 :=
  C10_report_frame st1 rep1 3 task1 (by rfl)

/-- A school-scoped config record for school "s1". -/
def cfgS : Config :=
  { id := 1, school_id := some "s1", data := .obj [("k", .num 1)], updated_at := 0 }

/-- A global config record (no school scope). -/
def cfgG : Config :=
  { id := 2, school_id := none, data := .obj [("g", .num 2)], updated_at := 0 }

/-- A store with both a school-scoped and a global config record. -/
def stCfgS : Store := { tasks := [], configs := [cfgS, cfgG], nextId := 1 }

/-- A store with only a global config record. -/
def stCfgG : Store := { tasks := [], configs := [cfgG], nextId := 1 }

/-- C2: config resolution returns the school-scoped record's payload
verbatim when one exists, else the global record's payload verbatim, else
the built-in default — never a field-level merge — and the built-in
default carries exactly the specified rate-limit, notification and agent
values. -/
theorem C2_config_resolution (s : Store) (sid : String) (cfg cfg2 : Config) :
    (s.configs.find? (fun c => c.school_id == some sid) = some cfg →
      get_config s sid = cfg.data) ∧
    (s.configs.find? (fun c => c.school_id == some sid) = none →
      s.configs.find? (fun c => c.school_id == none) = some cfg2 →
      get_config s sid = cfg2.data) ∧
    (s.configs.find? (fun c => c.school_id == some sid) = none →
      s.configs.find? (fun c => c.school_id == none) = none →
      get_config s sid = defaultConfig) ∧
    defaultConfig.getPath "rate_limits" "per_task_interval_min" = some (.num 15) ∧
    defaultConfig.getPath "rate_limits" "jitter_percent" = some (.num 30) ∧
    defaultConfig.getPath "rate_limits" "max_checks_per_hour" = some (.num 20) ∧
    defaultConfig.getPath "rate_limits" "max_checks_per_day" = some (.num 200) ∧
    defaultConfig.getPath "rate_limits" "backoff_enabled" = some (.bool true) ∧
    defaultConfig.getPath "rate_limits" "backoff_factor" = some (.num 2) ∧
    defaultConfig.getPath "rate_limits" "max_interval_min" = some (.num 60) ∧
    defaultConfig.getPath "notifications" "allow_email" = some (.bool true) ∧
    defaultConfig.getPath "notifications" "allow_sms" = some (.bool true) ∧
    defaultConfig.getPath "notifications" "allow_telegram" = some (.bool true) ∧
    defaultConfig.getPath "agent" "heartbeat_interval_min" = some (.num 10) ∧
    defaultConfig.getPath "agent" "update_required" = some (.bool false) ∧
    defaultConfig.getPath "agent" "latest_version" = some (.str "1.0.0") := by
  refine ⟨fun h => by simp [get_config, h],
    fun h hg => by simp [get_config, h, hg],
    fun h hg => by simp [get_config, h, hg],
    rfl, rfl, rfl, rfl, rfl, rfl, rfl, rfl, rfl, rfl, rfl, rfl, rfl⟩

/-- C2 witness: the three resolution cases on concrete stores, plus the
default field values. -/
theorem C2_config_resolution_witness :
    get_config stCfgS "s1" = cfgS.data ∧
    get_config stCfgG "s1" = cfgG.data ∧
    get_config st0 "s1" = defaultConfig ∧
    defaultConfig.getPath "rate_limits" "per_task_interval_min" = some (.num 15) ∧
    defaultConfig.getPath "rate_limits" "jitter_percent" = some (.num 30) ∧
    defaultConfig.getPath "rate_limits" "max_checks_per_hour" = some (.num 20) ∧
    defaultConfig.getPath "rate_limits" "max_checks_per_day" = some (.num 200) ∧
    defaultConfig.getPath "rate_limits" "backoff_enabled" = some (.bool true) ∧
    defaultConfig.getPath "rate_limits" "backoff_factor" = some (.num 2) ∧
    defaultConfig.getPath "rate_limits" "max_interval_min" = some (.num 60) ∧
    defaultConfig.getPath "notifications" "allow_email" = some (.bool true) ∧
    defaultConfig.getPath "notifications" "allow_sms" = some (.bool true) ∧
    defaultConfig.getPath "notifications" "allow_telegram" = some (.bool true) ∧
    defaultConfig.getPath "agent" "heartbeat_interval_min" = some (.num 10) ∧
    defaultConfig.getPath "agent" "update_required" = some (.bool false) ∧
    defaultConfig.getPath "agent" "latest_version" = some (.str "1.0.0") :=
  ⟨(C2_config_resolution stCfgS "s1" cfgS cfgG).1 (by rfl),
   (C2_config_resolution stCfgG "s1" cfgS cfgG).2.1 (by rfl) (by rfl),
   (C2_config_resolution st0 "s1" cfgS cfgG).2.2.1 (by rfl) (by rfl),
   (C2_config_resolution st0 "s1" cfgS cfgG).2.2.2⟩

/-- C7: both the task-detail query and the administrative update fail with
a 404 "Task not found" error for an unknown task id; the failing update
produces no new store, so the store is unchanged by construction. -/
theorem C7_unknown_task_404 (s : Store) (tid : Nat) (u : TaskUpdateRequest)
    (now : Nat) (h : s.tasks.find? (fun x => x.id == tid) = none) :
    get_task_status s tid = .error { code := 404, detail := "Task not found" } ∧
    update_task_status s tid u now =
      .error { code := 404, detail := "Task not found" } := by
  constructor
  · simp [get_task_status, h]
  · simp [update_task_status, h]

/-- C7 witness: unknown id 1 against the empty store. -/
theorem C7_unknown_task_404_witness :
    get_task_status st0 1 = .error { code := 404, detail := "Task not found" } ∧
    update_task_status st0 1 { status := "processing", progress := 50, message := none } 9 =
      .error { code := 404, detail := "Task not found" } :=
  C7_unknown_task_404 st0 1 { status := "processing", progress := 50, message := none } 9 (by rfl)

/-- C5 counterexample: the update request provides a message (the empty
string, which is not `None`), yet the task's message is not overwritten —
it stays the nonempty creation message — because the code guards the
overwrite with Python truthiness (`if update.message:`). -/
theorem C5_counterexample :
    (({ status := "failed", progress := 0, message := some "" } :
        TaskUpdateRequest).message ≠ none) ∧
    update_task_status st1 1
        { status := "failed", progress := 0, message := some "" } 9 =
      .ok ({ st1 with tasks :=
              [{ task1 with status := "failed", progress := 0, updated_at := 9 }] },
           "任务状态已更新") ∧
    ({ task1 with status := "failed", progress := 0, updated_at := 9 } :
        Task).message ≠ "" := by
  refine ⟨by simp, by rfl, by simp [task1]⟩

/-- C5 (amended): for an existing task the administrative update always
overwrites status and progress and refreshes the update timestamp, and
overwrites the message exactly when a non-empty message is provided; a
missing message or a provided empty string leaves the message unchanged. -/
theorem C5_update_overwrites (s : Store) (tid : Nat) (u : TaskUpdateRequest)
    (now : Nat) (t : Task)
    (h : s.tasks.find? (fun x => x.id == tid) = some t) :
    ∃ s2, update_task_status s tid u now = .ok (s2, "任务状态已更新") ∧
      ∃ t2, s2.tasks.find? (fun x => x.id == tid) = some t2 ∧
        t2.status = u.status ∧ t2.progress = u.progress ∧ t2.updated_at = now ∧
        (u.message = none → t2.message = t.message) ∧
        (u.message = some "" → t2.message = t.message) ∧
        (∀ m, u.message = some m → m ≠ "" → t2.message = m) := by
  have hpt : (t.id == tid) = true := by simpa using List.find?_some h
  refine ⟨{ s with tasks := updateFirst (fun x => x.id == tid) (applyUpdate now u) s.tasks },
    by simp [update_task_status, h],
    applyUpdate now u t,
    find?_updateFirst _ _ _ t h (by simpa [applyUpdate] using hpt),
    rfl, rfl, rfl, ?_, ?_, ?_⟩
  · intro hm; simp [applyUpdate, hm]
  · intro hm; simp [applyUpdate, hm]
  · intro m hm hne; simp [applyUpdate, hm, hne]

/-- C5 witness: a concrete update with a non-empty message against the
one-task store. -/
theorem C5_update_overwrites_witness :
    ∃ s2, update_task_status st1 1
        { status := "processing", progress := 40, message := some "进行中" } 6 =
      .ok (s2, "任务状态已更新") ∧
      ∃ t2, s2.tasks.find? (fun x => x.id == 1) = some t2 ∧
        t2.status = ({ status := "processing", progress := 40, message := some "进行中" } :
            TaskUpdateRequest).status ∧
        t2.progress = ({ status := "processing", progress := 40, message := some "进行中" } :
            TaskUpdateRequest).progress ∧
        t2.updated_at = 6 ∧
        (({ status := "processing", progress := 40, message := some "进行中" } :
            TaskUpdateRequest).message = none → t2.message = task1.message) ∧
        (({ status := "processing", progress := 40, message := some "进行中" } :
            TaskUpdateRequest).message = some "" → t2.message = task1.message) ∧
        (∀ m, ({ status := "processing", progress := 40, message := some "进行中" } :
            TaskUpdateRequest).message = some m → m ≠ "" → t2.message = m) :=
  C5_update_overwrites st1 1
    { status := "processing", progress := 40, message := some "进行中" } 6 task1 (by rfl)

/-- C6: enrollment appends exactly one new task, with status "pending",
progress 10, a fresh id distinct from every existing task's id, and the
full request persisted verbatim as its payload; the response returns that
id with an ok status, and listing the school's tasks afterwards includes
the new task. -/
theorem C6_enroll_creates (s : Store) (req : EnrollRequest) (now : Nat)
    (hwf : ∀ t ∈ s.tasks, t.id < s.nextId) :
    (enroll s req now).2.status = "ok" ∧
    (enroll s req now).2.task_id = s.nextId ∧
    (∀ t ∈ s.tasks, t.id ≠ (enroll s req now).2.task_id) ∧
    (enroll s req now).1.tasks.length = s.tasks.length + 1 ∧
    (enroll s req now).1.tasks.find? (fun u => u.id == s.nextId) = some
      { id := s.nextId, school_id := req.school_id, data := req,
        created_at := now, status := "pending", updated_at := now,
        progress := 10, message := "报名信息已接收，等待处理" } ∧
    ∃ v ∈ get_tasks (enroll s req now).1 req.school_id none,
      v.task_id = (enroll s req now).2.task_id ∧ v.payload = req ∧
      v.status = "pending" ∧ v.progress = 10 := by
  refine ⟨rfl, rfl, fun t ht => Nat.ne_of_lt (hwf t ht), by simp [enroll], ?_, ?_⟩
  · show (s.tasks ++ [_]).find? _ = _
    rw [List.find?_append]
    have hnone : s.tasks.find? (fun u => u.id == s.nextId) = none :=
      List.find?_eq_none.mpr (fun x hx => by simp [Nat.ne_of_lt (hwf x hx)])
    simp [hnone]
  · refine ⟨taskViewOf
      { id := s.nextId, school_id := req.school_id, data := req,
        created_at := now, status := "pending", updated_at := now,
        progress := 10, message := "报名信息已接收，等待处理" }, ?_, rfl, rfl, rfl, rfl⟩
    apply List.mem_map_of_mem
    exact List.mem_filter.mpr ⟨List.mem_append_right _ (List.mem_singleton.mpr rfl), by simp⟩

/-- C6 witness: enrollment into the empty store. -/
theorem C6_enroll_creates_witness :
    (enroll st0 req0 0).2.status = "ok" ∧
    (enroll st0 req0 0).2.task_id = st0.nextId ∧
    (∀ t ∈ st0.tasks, t.id ≠ (enroll st0 req0 0).2.task_id) ∧
    (enroll st0 req0 0).1.tasks.length = st0.tasks.length + 1 ∧
    (enroll st0 req0 0).1.tasks.find? (fun u => u.id == st0.nextId) = some
      { id := st0.nextId, school_id := req0.school_id, data := req0,
        created_at := 0, status := "pending", updated_at := 0,
        progress := 10, message := "报名信息已接收，等待处理" } ∧
    ∃ v ∈ get_tasks (enroll st0 req0 0).1 req0.school_id none,
      v.task_id = (enroll st0 req0 0).2.task_id ∧ v.payload = req0 ∧
      v.status = "pending" ∧ v.progress = 10 :=
  C6_enroll_creates st0 req0 0 (by simp [st0])

/-- An administrative update writing a status outside the enumeration. -/
def c4upd : TaskUpdateRequest :=
  { status := "canceled", progress := 50, message := none }

/-- The store reached by enrolling `req0` and then administratively
setting the task's status to the free-form string "canceled". -/
def c4Store : Store :=
  { tasks := [{ task1 with status := "canceled", progress := 50, updated_at := 2 }],
    configs := [], nextId := 2 }

/-- C4 counterexample: a reachable store (enroll, then an administrative
update with the unvalidated free-form status "canceled") in which the four
per-status counts sum to 0 while the total task count is 1. -/
theorem C4_counterexample :
    Reachable c4Store ∧
    (get_statistics c4Store 7).pending + (get_statistics c4Store 7).processing +
      (get_statistics c4Store 7).completed + (get_statistics c4Store 7).failed ≠
      (get_statistics c4Store 7).total_enrollments := by
  constructor
  · exact Reachable.update 1 c4upd 2 (Reachable.enroll req0 0 (Reachable.init [])) (by rfl)
  · decide

/-- C4 (amended): in every store state in which each task's status is one
of the four enumerated statuses (pending, processing, completed, failed),
the per-status counts sum to the reported total; administrative updates
with free-form statuses can leave this range and break the equality. -/
theorem C4_stats_sum (s : Store) (now : Nat)
    (h : ∀ t ∈ s.tasks, t.status = "pending" ∨ t.status = "processing" ∨
      t.status = "completed" ∨ t.status = "failed") :
    (get_statistics s now).pending + (get_statistics s now).processing +
      (get_statistics s now).completed + (get_statistics s now).failed =
      (get_statistics s now).total_enrollments :=
  statusCounts_sum s.tasks h

/-- C4 witness: the one-task pending store. -/
theorem C4_stats_sum_witness :
    (get_statistics st1 7).pending + (get_statistics st1 7).processing +
      (get_statistics st1 7).completed + (get_statistics st1 7).failed =
      (get_statistics st1 7).total_enrollments :=
  C4_stats_sum st1 7 (by decide)

/-- A store holding five tasks (ids 1–5), for the pagination scenarios. -/
def st5 : Store :=
  { tasks :=
      [{ task1 with id := 1, created_at := 5 },
       { task1 with id := 2, created_at := 4 },
       { task1 with id := 3, created_at := 3, data := req1, school_id := "s2" },
       { task1 with id := 4, created_at := 2 },
       { task1 with id := 5, created_at := 1 }],
    configs := [], nextId := 6 }

/-- C8: the enrollments listing defaults to limit 100 and offset 0,
rejects limits above 1000 and negative offsets (so an accepted limit never
exceeds 1000), returns all five records with total 5 when limit 1000 is
requested against five records, and returns an empty page with the
correct total when the offset lies beyond the total. -/
theorem C8_pagination (s : Store) (l o : Int) :
    get_all_enrollments s none none = get_all_enrollments s (some 100) (some 0) ∧
    (1000 < l → get_all_enrollments s (some l) (some o) =
      .error { code := 422, detail := "limit must be at most 1000" }) ∧
    (l ≤ 1000 → o < 0 → get_all_enrollments s (some l) (some o) =
      .error { code := 422, detail := "offset must be at least 0" }) ∧
    (s.tasks.length = 5 → ∃ page,
      get_all_enrollments s (some 1000) (some 0) = .ok page ∧
      page.total = 5 ∧ page.enrollments.length = 5 ∧
      page.enrollments.Perm (s.tasks.map enrollmentViewOf)) ∧
    (0 ≤ o → s.tasks.length ≤ o.toNat → ∃ page,
      get_all_enrollments s none (some o) = .ok page ∧
      page.enrollments = [] ∧ page.total = s.tasks.length) := by
  have hlen : (tasksByCreatedDesc s).length = s.tasks.length :=
    List.length_mergeSort _
  refine ⟨rfl, ?_, ?_, ?_, ?_⟩
  · intro h
    unfold get_all_enrollments
    simp only [Option.getD_some]
    rw [if_pos h]
  · intro h1 h2
    unfold get_all_enrollments
    simp only [Option.getD_some]
    rw [if_neg (by omega), if_pos h2]
  · intro h5
    have htake : (tasksByCreatedDesc s).take 1000 = tasksByCreatedDesc s :=
      List.take_of_length_le (by omega)
    have hres : get_all_enrollments s (some 1000) (some 0) =
        .ok { total := s.tasks.length, limit := 1000, offset := 0,
              enrollments := (tasksByCreatedDesc s).map enrollmentViewOf } := by
      unfold get_all_enrollments
      simp only [Option.getD_some]
      rw [if_neg (by omega), if_neg (by omega)]
      simp [htake]
    refine ⟨_, hres, by simpa using h5, by simpa [hlen] using h5, ?_⟩
    exact List.Perm.map _ (List.mergeSort_perm _ _)
  · intro h0 hbeyond
    have hdrop : (tasksByCreatedDesc s).drop o.toNat = [] :=
      List.drop_eq_nil_of_le (by omega)
    have hres : get_all_enrollments s none (some o) =
        .ok { total := s.tasks.length, limit := 100, offset := o,
              enrollments := [] } := by
      unfold get_all_enrollments
      simp only [Option.getD_some, Option.getD_none]
      rw [if_neg (by omega), if_neg (by omega)]
      simp [hdrop]
    exact ⟨_, hres, rfl, rfl⟩

/-- C8 witness: the five-task store at the boundary inputs. -/
theorem C8_pagination_witness :
    get_all_enrollments st5 none none = get_all_enrollments st5 (some 100) (some 0) ∧
    get_all_enrollments st5 (some 1001) (some 0) =
      .error { code := 422, detail := "limit must be at most 1000" } ∧
    get_all_enrollments st5 (some 100) (some (-1)) =
      .error { code := 422, detail := "offset must be at least 0" } ∧
    (∃ page, get_all_enrollments st5 (some 1000) (some 0) = .ok page ∧
      page.total = 5 ∧ page.enrollments.length = 5 ∧
      page.enrollments.Perm (st5.tasks.map enrollmentViewOf)) ∧
    (∃ page, get_all_enrollments st5 none (some 7) = .ok page ∧
      page.enrollments = [] ∧ page.total = st5.tasks.length) :=
  ⟨(C8_pagination st5 0 0).1,
   (C8_pagination st5 1001 0).2.1 (by decide),
   (C8_pagination st5 100 (-1)).2.2.1 (by decide) (by decide),
   (C8_pagination st5 0 0).2.2.2.1 (by rfl),
   (C8_pagination st5 0 7).2.2.2.2 (by decide) (by decide)⟩

/-- C9: searching with no criterion (all three absent) fails with a 400
InvalidArgument error; with a non-empty email criterion the results are
exactly the tasks whose decoded student email equals the query, with a
non-empty phone criterion exactly those whose student phone equals the
query, and a school criterion is applied as a store-level filter before
the in-memory email filter. -/
theorem C9_search_criteria (s : Store) (e ph sid : String)
    (he : e ≠ "") (hp : ph ≠ "") (hs : sid ≠ "") :
    search_enrollments s none none none =
      .error { code := 400,
               detail := "请提供至少一个搜索条件：email、phone 或 school_id" } ∧
    search_enrollments s (some e) none none =
      .ok { total := (s.tasks.filter
              (fun t => dictGet t.data.student "email" == some e)).length,
            results := (s.tasks.filter
              (fun t => dictGet t.data.student "email" == some e)).map
                enrollmentViewOf } ∧
    search_enrollments s none (some ph) none =
      .ok { total := (s.tasks.filter
              (fun t => dictGet t.data.student "phone" == some ph)).length,
            results := (s.tasks.filter
              (fun t => dictGet t.data.student "phone" == some ph)).map
                enrollmentViewOf } ∧
    search_enrollments s (some e) none (some sid) =
      .ok { total := ((s.tasks.filter (fun t => t.school_id == sid)).filter
              (fun t => dictGet t.data.student "email" == some e)).length,
            results := ((s.tasks.filter (fun t => t.school_id == sid)).filter
              (fun t => dictGet t.data.student "email" == some e)).map
                enrollmentViewOf } := by
  have hte : truthy (some e) = true := decide_eq_true he
  have hts : truthy (some sid) = true := decide_eq_true hs
  have htp : truthy (some ph) = true := decide_eq_true hp
  have htn : truthy (none : Option String) = false := rfl
  have hsm_e : ∀ x ∈ s.tasks,
      searchMatch (some e) none x = (dictGet x.data.student "email" == some e) :=
    fun x _ => by unfold searchMatch; rw [hte, htn]; simp
  have hsm_p : ∀ x ∈ s.tasks,
      searchMatch none (some ph) x = (dictGet x.data.student "phone" == some ph) :=
    fun x _ => by unfold searchMatch; rw [htp, htn]; simp
  have hbase : s.tasks.filter (fun t => some t.school_id == some sid) =
      s.tasks.filter (fun t => t.school_id == sid) :=
    List.filter_congr (fun x _ => rfl)
  have hsm_e2 : ∀ x ∈ s.tasks.filter (fun t => t.school_id == sid),
      searchMatch (some e) none x = (dictGet x.data.student "email" == some e) :=
    fun x _ => by unfold searchMatch; rw [hte, htn]; simp
  refine ⟨rfl, ?_, ?_, ?_⟩
  · have hstep : search_enrollments s (some e) none none =
        .ok { total := (s.tasks.filter (searchMatch (some e) none)).length,
              results := (s.tasks.filter (searchMatch (some e) none)).map
                enrollmentViewOf } := by
      unfold search_enrollments
      rw [hte]
      rfl
    rw [hstep, List.filter_congr hsm_e]
  · have hstep : search_enrollments s none (some ph) none =
        .ok { total := (s.tasks.filter (searchMatch none (some ph))).length,
              results := (s.tasks.filter (searchMatch none (some ph))).map
                enrollmentViewOf } := by
      unfold search_enrollments
      rw [htp]
      rfl
    rw [hstep, List.filter_congr hsm_p]
  · have hstep : search_enrollments s (some e) none (some sid) =
        .ok { total := ((s.tasks.filter (fun t => some t.school_id == some sid)).filter
                (searchMatch (some e) none)).length,
              results := ((s.tasks.filter (fun t => some t.school_id == some sid)).filter
                (searchMatch (some e) none)).map enrollmentViewOf } := by
      unfold search_enrollments
      rw [hte, hts]
      rfl
    rw [hstep, hbase, List.filter_congr hsm_e2]

/-- C9 witness: the one-task store with email "e@x", phone "123",
school "s1". -/
theorem C9_search_criteria_witness :
    search_enrollments st1 none none none =
      .error { code := 400,
               detail := "请提供至少一个搜索条件：email、phone 或 school_id" } ∧
    search_enrollments st1 (some "e@x") none none =
      .ok { total := (st1.tasks.filter
              (fun t => dictGet t.data.student "email" == some "e@x")).length,
            results := (st1.tasks.filter
              (fun t => dictGet t.data.student "email" == some "e@x")).map
                enrollmentViewOf } ∧
    search_enrollments st1 none (some "123") none =
      .ok { total := (st1.tasks.filter
              (fun t => dictGet t.data.student "phone" == some "123")).length,
            results := (st1.tasks.filter
              (fun t => dictGet t.data.student "phone" == some "123")).map
                enrollmentViewOf } ∧
    search_enrollments st1 (some "e@x") none (some "s1") =
      .ok { total := ((st1.tasks.filter (fun t => t.school_id == "s1")).filter
              (fun t => dictGet t.data.student "email" == some "e@x")).length,
            results := ((st1.tasks.filter (fun t => t.school_id == "s1")).filter
              (fun t => dictGet t.data.student "email" == some "e@x")).map
                enrollmentViewOf } :=
  C9_search_criteria st1 "e@x" "123" "s1" (by decide) (by decide) (by decide)

end ICBC
